import Mathlib

/-!
Shallow embedding of `src/app/agents/tools.py` (repository yashdodwani/credflow).

Modelling conventions:
* Python `int` arguments are `ℤ`; Python float arithmetic is modelled exactly
  over `ℚ` (the spec demands exact, reproducible arithmetic; all concrete
  witnesses below are far from any binary-rounding boundary).
* Python `round` (round-half-to-even) is `pyRound`; the `"%.0f"`-style
  formatting of a ratio percentage also rounds half to even, so it reuses
  `pyRound`.
* The `try/except` around the amortization formula can only fail through
  float overflow at extreme magnitudes; the embedding makes that exception an
  explicit boolean parameter `amortRaises` so both the normal and the failsafe
  path are expressible.
* `foir = total_emis / monthly_income` sits outside the `try`: when
  `annual_income = 0` the Python code raises an uncaught `ZeroDivisionError`.
  The embedding returns `Except.error PyError.zeroDivision` there.
* `AgentToolResponse` is a pydantic model not present under `src/`; its shape
  (fields `status`, `message`, optional `data` defaulting to `None`) is taken
  from its uses in `tools.py`.
-/

inductive PyError where
  | zeroDivision
deriving Repr, DecidableEq

instance {ε α : Type} [DecidableEq ε] [DecidableEq α] : DecidableEq (Except ε α) := fun a b =>
  match a, b with
  | .error x, .error y =>
    match decEq x y with
    | .isTrue h => .isTrue (h ▸ rfl)
    | .isFalse h => .isFalse (fun hh => h (by cases hh; rfl))
  | .error _, .ok _ => .isFalse (fun hh => by cases hh)
  | .ok _, .error _ => .isFalse (fun hh => by cases hh)
  | .ok x, .ok y =>
    match decEq x y with
    | .isTrue h => .isTrue (h ▸ rfl)
    | .isFalse h => .isFalse (fun hh => h (by cases hh; rfl))

/-- Pydantic response model used by every tool: `status`, `message`, and an
optional `data` payload defaulting to `None` (shape taken from its call sites
in `tools.py`). -/
structure AgentToolResponse (α : Type) where
  status : String
  message : String
  data : Option α := none
deriving Repr, DecidableEq

/-- Modelled from the spec: the identity-lookup collaborator returns a profile
carrying `full_name`, `annual_income`, `existing_monthly_obligations`,
`bureau_score`, and a KYC-verification flag (`app.models.data_models` is not
under `src/`; only the fields `full_name` and `kyc_verified` are read by
`verification_tool`). -/
structure CustomerProfile where
  full_name : String
  annual_income : ℤ
  existing_monthly_obligations : ℤ
  bureau_score : ℤ
  kyc_verified : Bool
deriving Repr, DecidableEq

def CREDIT_POLICY_MIN_SCORE : ℤ := 700

def CREDIT_POLICY_MAX_FOIR : ℚ := 50/100

/-- Python `round` on a real value: round half to even. -/
def pyRound (q : ℚ) : ℤ :=
  let f := q.floor
  if q - f < 1/2 then f
  else if q - f > 1/2 then f + 1
  else if f % 2 = 0 then f else f + 1

/-- `verification_tool` (tools.py lines 21-56).  The Firestore lookup
`get_customer_by_phone` lives in `app.database.firestore_db`, which is not
under `src/`; modelled from the spec as an abstract
`resolve(phone_number) -> profile or not-found` map, passed as a parameter. -/
def verification_tool (get_customer_by_phone : String → Option CustomerProfile)
    (phone_number : String) : AgentToolResponse CustomerProfile :=
  if phone_number = "" ∨ phone_number.length ≠ 10 ∨ ¬ phone_number.all Char.isDigit then
    { status := "error"
      message := "Invalid phone number. Please provide a valid 10-digit number." }
  else
    match get_customer_by_phone phone_number with
    | none =>
      { status := "error"
        message := "No customer profile found for " ++ phone_number ++ ". We cannot proceed." }
    | some customer =>
      if ¬ customer.kyc_verified then
        { status := "error"
          message := "Customer " ++ customer.full_name ++
            " found, but KYC is not verified. Please complete KYC." }
      else
        { status := "success"
          message := "Successfully verified customer: " ++ customer.full_name
          data := some customer }

def interest_rate_monthly : ℚ := (14/100) / 12

/-- Tenure normalization (tools.py line 116): a zero tenure is replaced by 12. -/
def normTenure (requested_tenure_months : ℤ) : ℤ :=
  if requested_tenure_months = 0 then 12 else requested_tenure_months

/-- The `try/except` block of tools.py lines 118-131, on the already-normalized
tenure `n`.  Normal path: the amortizing formula, then Python `round`
(lines 124-129).  `amortRaises = true` is the `except` path (line 131): the
failsafe `requested_amount * 1.14 / n`, with no rounding applied. -/
def computeNewEmi (requested_amount n : ℤ) (amortRaises : Bool) : ℚ :=
  if amortRaises then
    ((requested_amount : ℚ) * (114/100)) / (n : ℚ)
  else
    let r := interest_rate_monthly
    let raw : ℚ :=
      if 0 < r then
        ((requested_amount : ℚ) * r * (1 + r) ^ n) / ((1 + r) ^ n - 1)
      else (requested_amount : ℚ) / (n : ℚ)
    (pyRound raw : ℚ)

/-- The obligation ratio the code computes (tools.py lines 104, 134, 137):
`(existing_emis + new_emi) / (annual_income / 12)`, tenure normalized first. -/
def computeFoir (annual_income existing_emis requested_amount requested_tenure_months : ℤ)
    (amortRaises : Bool) : ℚ :=
  ((existing_emis : ℚ) +
      computeNewEmi requested_amount (normTenure requested_tenure_months) amortRaises) /
    ((annual_income : ℚ) / 12)

/-- Payload of an approved decision (tools.py line 151). -/
structure ApprovedData where
  approved_amount : ℤ
  tenure : ℤ
  new_emi : ℚ
deriving Repr, DecidableEq

/-- Steps past the credit-score gate (tools.py lines 104-152), on the
already-normalized tenure `n`: EMI projection, FOIR, and the obligation-ratio
gate.  The division `total_emis / monthly_income` (line 137) raises
`ZeroDivisionError` exactly when `annual_income = 0`. -/
def ratioStage (annual_income existing_emis requested_amount n : ℤ)
    (amortRaises : Bool) : Except PyError (AgentToolResponse ApprovedData) :=
  if annual_income = 0 then .error .zeroDivision
  else
    let monthly_income : ℚ := (annual_income : ℚ) / 12
    let new_emi : ℚ := computeNewEmi requested_amount n amortRaises
    let total_emis : ℚ := (existing_emis : ℚ) + new_emi
    let foir : ℚ := total_emis / monthly_income
    if foir > CREDIT_POLICY_MAX_FOIR then
      .ok { status := "rejected"
            message := "Loan rejected. Your Fixed Obligation to Income Ratio (FOIR) would be " ++
              toString (pyRound (foir * 100)) ++ "%, which is above the " ++
              toString (pyRound (CREDIT_POLICY_MAX_FOIR * 100)) ++ "% limit." }
    else
      .ok { status := "approved"
            message := "Congratulations! Your loan for " ++ toString requested_amount ++
              " is approved. Your FOIR is " ++ toString (pyRound (foir * 100)) ++ "%."
            data := some { approved_amount := requested_amount
                           tenure := n
                           new_emi := new_emi } }

/-- `underwriting_tool` (tools.py lines 61-152): credit-score gate first
(lines 84-93), then tenure normalization and the ratio stage. -/
def underwriting_tool (annual_income existing_emis bureau_score requested_amount
    requested_tenure_months : ℤ) (amortRaises : Bool) :
    Except PyError (AgentToolResponse ApprovedData) :=
  if bureau_score < CREDIT_POLICY_MIN_SCORE then
    if bureau_score = 0 then
      .ok { status := "needs_review"
            message := "Customer is new to credit (Score: 0). Forwarding for manual underwriting." }
    else
      .ok { status := "rejected"
            message := "Loan rejected. Credit score (" ++ toString bureau_score ++
              ") is below the minimum required (" ++ toString CREDIT_POLICY_MIN_SCORE ++ ")." }
  else
    ratioStage annual_income existing_emis requested_amount
      (normTenure requested_tenure_months) amortRaises

set_option maxRecDepth 10000

/-- C3: for every input with bureau_score = 0, regardless of all other fields,
the outcome is the manual-review one ("needs_review" in the code, the outcome
the spec calls needs_manual_review) with the manual-underwriting rationale,
and the evaluation stops at the score gate: no installment or ratio data is
returned (data = none). -/
theorem uw_score_zero_manual_review (ai ee ra rt : ℤ) (flag : Bool) :
    underwriting_tool ai ee 0 ra rt flag =
      .ok { status := "needs_review"
            message := "Customer is new to credit (Score: 0). Forwarding for manual underwriting."
            data := none } := by
  unfold underwriting_tool
  norm_num [CREDIT_POLICY_MIN_SCORE]

/-- C8: an input with requested_tenure_months = 0 evaluates to exactly the same
decision as the same input with requested_tenure_months = 12. -/
theorem uw_zero_tenure_default (ai ee bs ra : ℤ) (flag : Bool) :
    underwriting_tool ai ee bs ra 0 flag = underwriting_tool ai ee bs ra 12 flag := by
  unfold underwriting_tool
  norm_num [normTenure]

/-- C9: evaluation is deterministic and stateless: the embedding of
underwriting_tool is a pure function of its five arguments (and the
amortization-exception flag), so two calls with identical arguments return
identical decisions. -/
theorem uw_deterministic (ai ee bs ra rt : ℤ) (flag : Bool) :
    underwriting_tool ai ee bs ra rt flag = underwriting_tool ai ee bs ra rt flag := rfl

/-- C4: bureau_score = 700 (the policy minimum) passes the credit-score gate —
the evaluation continues with the ratio stage — while every score in 1..699 is
rejected at the score gate with the low-score rationale and no installment
data (data = none). -/
theorem uw_score_floor_boundary (ai ee ra rt : ℤ) (flag : Bool) :
    (underwriting_tool ai ee 700 ra rt flag = ratioStage ai ee ra (normTenure rt) flag) ∧
    (∀ bs : ℤ, 1 ≤ bs → bs ≤ 699 →
      underwriting_tool ai ee bs ra rt flag =
        .ok { status := "rejected"
              message := "Loan rejected. Credit score (" ++ toString bs ++
                ") is below the minimum required (" ++ toString CREDIT_POLICY_MIN_SCORE ++ ")."
              data := none }) := by
  constructor
  · unfold underwriting_tool
    norm_num [CREDIT_POLICY_MIN_SCORE]
  · intro bs h1 h2
    have hlt : bs < CREDIT_POLICY_MIN_SCORE := by unfold CREDIT_POLICY_MIN_SCORE; omega
    have hne : ¬ bs = 0 := by omega
    unfold underwriting_tool
    simp [hlt, hne]

/-- Witness for C4 at score 700 (gate passed) and score 699 (rejected). -/
theorem uw_score_floor_boundary_witness :
    underwriting_tool 240000 0 700 50000 12 false =
      ratioStage 240000 0 50000 (normTenure 12) false ∧
    underwriting_tool 240000 0 699 50000 12 false =
      .ok { status := "rejected"
            message := "Loan rejected. Credit score (" ++ toString (699 : ℤ) ++
              ") is below the minimum required (" ++ toString CREDIT_POLICY_MIN_SCORE ++ ")."
            data := none } :=
  ⟨(uw_score_floor_boundary 240000 0 50000 12 false).1,
   (uw_score_floor_boundary 240000 0 50000 12 false).2 699 (by decide) (by decide)⟩

/-- C7: every decision the evaluator returns (when it returns one at all — a
zero annual income makes it raise instead) carries a status from the closed
set: approved, rejected, or the manual-review status "needs_review". -/
theorem uw_outcome_closed_set (ai ee bs ra rt : ℤ) (flag : Bool)
    (resp : AgentToolResponse ApprovedData)
    (h : underwriting_tool ai ee bs ra rt flag = .ok resp) :
    resp.status = "approved" ∨ resp.status = "rejected" ∨ resp.status = "needs_review" := by
  unfold underwriting_tool ratioStage at h
  simp only [gt_iff_lt] at h
  split_ifs at h <;>
    first
    | exact Except.noConfusion h
    | (injection h with h2; subst h2;
       first
       | exact Or.inl rfl
       | exact Or.inr (Or.inl rfl)
       | exact Or.inr (Or.inr rfl))

/-- Witness for C7 at a concrete approved decision. -/
theorem uw_outcome_closed_set_witness :
    ({ status := "approved"
       message := "Congratulations! Your loan for 20000 is approved. Your FOIR is 9%."
       data := some { approved_amount := 20000, tenure := 12, new_emi := 1796 } } :
        AgentToolResponse ApprovedData).status = "approved" ∨
    ({ status := "approved"
       message := "Congratulations! Your loan for 20000 is approved. Your FOIR is 9%."
       data := some { approved_amount := 20000, tenure := 12, new_emi := 1796 } } :
        AgentToolResponse ApprovedData).status = "rejected" ∨
    ({ status := "approved"
       message := "Congratulations! Your loan for 20000 is approved. Your FOIR is 9%."
       data := some { approved_amount := 20000, tenure := 12, new_emi := 1796 } } :
        AgentToolResponse ApprovedData).status = "needs_review" :=
  uw_outcome_closed_set 240000 0 750 20000 12 false _ (by with_unfolding_all rfl)

/-- C2: past the credit-score gate (and with a nonzero annual income, so the
ratio is computable), an obligation ratio exactly equal to
CREDIT_POLICY_MAX_FOIR (0.50) yields an approved decision — the code compares
with a strict greater-than, so the boundary is inclusive — while a ratio
strictly above the limit yields a rejected decision. -/
theorem uw_ratio_boundary (ai ee bs ra rt : ℤ) (flag : Bool)
    (hbs : CREDIT_POLICY_MIN_SCORE ≤ bs) (hai : ai ≠ 0) :
    (computeFoir ai ee ra rt flag = CREDIT_POLICY_MAX_FOIR →
      (underwriting_tool ai ee bs ra rt flag).map AgentToolResponse.status = .ok "approved") ∧
    (CREDIT_POLICY_MAX_FOIR < computeFoir ai ee ra rt flag →
      (underwriting_tool ai ee bs ra rt flag).map AgentToolResponse.status = .ok "rejected") := by
  have hnot : ¬ bs < CREDIT_POLICY_MIN_SCORE := not_lt.mpr hbs
  unfold computeFoir
  unfold underwriting_tool ratioStage
  simp only [hnot, if_false, hai, gt_iff_lt]
  constructor
  · intro hf
    rw [hf, if_neg (lt_irrefl CREDIT_POLICY_MAX_FOIR)]
    rfl
  · intro hf
    rw [if_pos hf]
    rfl

/-- Witness for C2: with annual_income = 215976, existing_emis = 20,
amount = 100000, tenure = 12 the projected EMI is 8979, so the ratio is
(20 + 8979) / 17998 = 1/2 exactly and the loan is approved; raising
existing_emis to 21 pushes the ratio just above 1/2 and flips the outcome to
rejected. -/
theorem uw_ratio_boundary_witness :
    (underwriting_tool 215976 20 750 100000 12 false).map AgentToolResponse.status = .ok "approved" ∧
    (underwriting_tool 215976 21 750 100000 12 false).map AgentToolResponse.status = .ok "rejected" :=
  ⟨(uw_ratio_boundary 215976 20 750 100000 12 false (by decide) (by decide)).1
      (by with_unfolding_all rfl),
   (uw_ratio_boundary 215976 21 750 100000 12 false (by decide) (by decide)).2
      (of_decide_eq_true (by with_unfolding_all rfl))⟩

/-- C1 counterexample: the code performs no input validation at all.  A
malformed input with a negative bureau_score (-5, outside the documented
domain [0, 900]) is processed by the ordinary policy logic and produces a
normal rejected decision instead of failing with a ValidationError; and an
input with annual_income = 0 that passes the score gate raises an uncaught
ZeroDivisionError rather than a ValidationError naming the field. -/
theorem uw_no_validation_counterexample :
    underwriting_tool 100000 0 (-5) 1000 12 false =
      .ok { status := "rejected"
            message := "Loan rejected. Credit score (-5) is below the minimum required (700)."
            data := none } ∧
    underwriting_tool 0 0 750 1000 12 false = .error .zeroDivision :=
  ⟨by with_unfolding_all rfl, by with_unfolding_all rfl⟩

/-- C1 (amended): the evaluator never validates its inputs.  For any input with
a nonzero annual_income it returns a decision without raising (malformed
fields included); for any input with annual_income = 0 that passes the
credit-score gate it raises ZeroDivisionError — there is no ValidationError
and no check that runs before the policy logic. -/
theorem uw_no_validation (ai ee bs ra rt : ℤ) (flag : Bool) :
    (ai ≠ 0 → (underwriting_tool ai ee bs ra rt flag).isOk = true) ∧
    (ai = 0 → CREDIT_POLICY_MIN_SCORE ≤ bs →
      underwriting_tool ai ee bs ra rt flag = .error .zeroDivision) := by
  constructor
  · intro hai
    unfold underwriting_tool ratioStage
    simp only [gt_iff_lt]
    split_ifs <;> rfl
  · intro h0 hbs
    have hnot : ¬ bs < CREDIT_POLICY_MIN_SCORE := not_lt.mpr hbs
    unfold underwriting_tool ratioStage
    simp [hnot, h0]

/-- Witness for the amended C1. -/
theorem uw_no_validation_witness :
    (underwriting_tool 120000 0 (-5) 100000 12 false).isOk = true ∧
    underwriting_tool 0 500 720 100000 12 false = .error .zeroDivision :=
  ⟨(uw_no_validation 120000 0 (-5) 100000 12 false).1 (by decide),
   (uw_no_validation 0 500 720 100000 12 false).2 rfl (by decide)⟩

/-- C5 counterexample: the failsafe path is not flagged.  With
annual_income = 120000, existing_emis = 0, amount = 100000, tenure = 12, the
degraded computation (amortization raised, failsafe EMI = 100000 * 1.14 / 12 =
9500) produces a decision byte-identical to the normal-path decision for
annual_income = 120000, existing_emis = 521 (normal EMI 8979, same total
9500): same status, same rationale string, same (absent) data — the degraded
path is indistinguishable in the returned decision. -/
theorem uw_fallback_indistinguishable :
    underwriting_tool 120000 0 750 100000 12 true =
      underwriting_tool 120000 521 750 100000 12 false ∧
    underwriting_tool 120000 0 750 100000 12 true =
      .ok { status := "rejected"
            message := "Loan rejected. Your Fixed Obligation to Income Ratio (FOIR) would be 95%, which is above the 50% limit."
            data := none } :=
  ⟨by with_unfolding_all rfl, by with_unfolding_all rfl⟩

/-- C5 (amended): when the amortization formula cannot be evaluated, the
failsafe installment requested_amount * 1.14 / tenure (unrounded) is used and
evaluation proceeds through the ordinary ratio stage, returning a normal
decision that carries no degradation flag or diagnostic of any kind. -/
theorem uw_fallback_silent (ai ee bs ra rt : ℤ) (hbs : CREDIT_POLICY_MIN_SCORE ≤ bs) :
    computeNewEmi ra (normTenure rt) true = ((ra : ℚ) * (114/100)) / ((normTenure rt : ℤ) : ℚ) ∧
    underwriting_tool ai ee bs ra rt true = ratioStage ai ee ra (normTenure rt) true := by
  refine ⟨rfl, ?_⟩
  unfold underwriting_tool
  simp [not_lt.mpr hbs]

/-- Witness for the amended C5. -/
theorem uw_fallback_silent_witness :
    computeNewEmi 80000 (normTenure 10) true =
      (((80000 : ℤ) : ℚ) * (114/100)) / (((normTenure 10 : ℤ)) : ℚ) ∧
    underwriting_tool 600000 0 710 80000 10 true = ratioStage 600000 0 80000 (normTenure 10) true :=
  uw_fallback_silent 600000 0 710 80000 10 (by decide)

/-- C6 counterexample: the concrete scenario D from the spec (score 750,
annual_income 300000, existing 20000, amount 1000000, tenure 12) is rejected
at the ratio gate, but the returned decision carries data = none: neither the
computed installment nor the obligation ratio is returned as a field; the
ratio appears only as a rounded percentage inside the rationale string. -/
theorem uw_rejected_data_none_counterexample :
    underwriting_tool 300000 20000 750 1000000 12 false =
      .ok { status := "rejected"
            message := "Loan rejected. Your Fixed Obligation to Income Ratio (FOIR) would be 439%, which is above the 50% limit."
            data := none } := by
  with_unfolding_all rfl

/-- C6 (amended): past the credit-score gate, a rejection at the ratio gate
returns a decision whose data field is none — the computed installment and
ratio are not populated as fields; only the ratio, rounded to a whole percent,
is embedded in the rationale.  (Only approved decisions carry the installment,
inside data, and even those carry no ratio field.) -/
theorem uw_ratio_reject_shape (ai ee bs ra rt : ℤ) (flag : Bool)
    (hbs : CREDIT_POLICY_MIN_SCORE ≤ bs) (hai : ai ≠ 0)
    (hf : CREDIT_POLICY_MAX_FOIR < computeFoir ai ee ra rt flag) :
    underwriting_tool ai ee bs ra rt flag =
      .ok { status := "rejected"
            message := "Loan rejected. Your Fixed Obligation to Income Ratio (FOIR) would be " ++
              toString (pyRound (computeFoir ai ee ra rt flag * 100)) ++ "%, which is above the " ++
              toString (pyRound (CREDIT_POLICY_MAX_FOIR * 100)) ++ "% limit."
            data := none } := by
  have hnot : ¬ bs < CREDIT_POLICY_MIN_SCORE := not_lt.mpr hbs
  unfold computeFoir at hf ⊢
  unfold underwriting_tool ratioStage
  simp only [hnot, if_false, hai, gt_iff_lt, if_pos hf]

/-- Witness for the amended C6 at scenario D. -/
theorem uw_ratio_reject_shape_witness :
    underwriting_tool 300000 20000 750 1000000 12 false =
      .ok { status := "rejected"
            message := "Loan rejected. Your Fixed Obligation to Income Ratio (FOIR) would be " ++
              toString (pyRound (computeFoir 300000 20000 1000000 12 false * 100)) ++
              "%, which is above the " ++
              toString (pyRound (CREDIT_POLICY_MAX_FOIR * 100)) ++ "% limit."
            data := none } :=
  uw_ratio_reject_shape 300000 20000 750 1000000 12 false (by decide) (by decide)
    (of_decide_eq_true (by with_unfolding_all rfl))

/-- C10: for any customer directory, verification_tool returns status
"success" exactly when the phone number is ten decimal digits, the directory
holds a profile for it, and that profile has kyc_verified = true; in every
other case the status is "error", the message is nonempty, and no customer
data is returned (data = none). -/
theorem verification_success_characterization
    (db : String → Option CustomerProfile) (phone : String) :
    ((verification_tool db phone).status = "success" ↔
      phone.length = 10 ∧ phone.all Char.isDigit = true ∧
        ∃ c, db phone = some c ∧ c.kyc_verified = true) ∧
    ((verification_tool db phone).status ≠ "success" →
      (verification_tool db phone).status = "error" ∧
      (verification_tool db phone).data = none ∧
      (verification_tool db phone).message ≠ "") := by
  have hes : ("error" : String) ≠ "success" := by decide
  by_cases hcond : phone = "" ∨ phone.length ≠ 10 ∨ ¬ phone.all Char.isDigit
  · have hv : verification_tool db phone =
        { status := "error"
          message := "Invalid phone number. Please provide a valid 10-digit number."
          data := none } := by
      unfold verification_tool
      rw [if_pos hcond]
    rw [hv]
    refine ⟨⟨fun hh => absurd hh hes, ?_⟩, fun _ => ⟨rfl, rfl, fun hh => absurd hh (by decide)⟩⟩
    rintro ⟨h10, hdig, -⟩
    rcases hcond with h | h | h
    · exact absurd h10 (by rw [h]; decide)
    · exact absurd h10 h
    · exact absurd hdig h
  · rcases hdb : db phone with _ | c
    · have hv : verification_tool db phone =
          { status := "error"
            message := "No customer profile found for " ++ phone ++ ". We cannot proceed."
            data := none } := by
        unfold verification_tool
        rw [if_neg hcond, hdb]
      rw [hv]
      refine ⟨⟨fun hh => absurd hh hes, ?_⟩, fun _ => ⟨rfl, rfl, ?_⟩⟩
      · rintro ⟨-, -, c, hc, -⟩
        exact Option.noConfusion hc
      · intro hh
        have h3 := congrArg String.length hh
        simp at h3
        exact absurd h3.2 (by decide)
    · by_cases hk : c.kyc_verified = true
      · have hv : verification_tool db phone =
            { status := "success"
              message := "Successfully verified customer: " ++ c.full_name
              data := some c } := by
          unfold verification_tool
          rw [if_neg hcond, hdb]
          exact if_neg (by simp [hk])
        rw [hv]
        push_neg at hcond
        exact ⟨⟨fun _ => ⟨hcond.2.1, hcond.2.2, c, rfl, hk⟩, fun _ => rfl⟩, fun hh => absurd rfl hh⟩
      · have hv : verification_tool db phone =
            { status := "error"
              message := "Customer " ++ c.full_name ++
                " found, but KYC is not verified. Please complete KYC."
              data := none } := by
          unfold verification_tool
          rw [if_neg hcond, hdb]
          exact if_pos hk
        rw [hv]
        refine ⟨⟨fun hh => absurd hh hes, ?_⟩, fun _ => ⟨rfl, rfl, ?_⟩⟩
        · rintro ⟨-, -, c2, hc2, hk2⟩
          injection hc2 with hc2
          subst hc2
          exact absurd hk2 hk
        · intro hh
          have h3 := congrArg String.length hh
          simp at h3
          exact absurd h3.2 (by decide)

/-- A sample customer directory holding one KYC-verified profile, used to
witness the verification characterization. -/
def dbSample : String → Option CustomerProfile := fun p =>
  if p = "9876543210" then
    some { full_name := "Asha Rao"
           annual_income := 1200000
           existing_monthly_obligations := 10000
           bureau_score := 750
           kyc_verified := true }
  else none

/-- Witness for C10: a ten-digit number with a KYC-verified profile is
verified successfully. -/
theorem verification_success_witness :
    (verification_tool dbSample "9876543210").status = "success" :=
  (verification_success_characterization dbSample "9876543210").1.mpr
    ⟨by decide, by with_unfolding_all rfl,
     ⟨{ full_name := "Asha Rao"
        annual_income := 1200000
        existing_monthly_obligations := 10000
        bureau_score := 750
        kyc_verified := true }, rfl, rfl⟩⟩
